import Mathlib

/-!
Verification development for the weibo-saver repository.

JavaScript strings are modelled as Lean `String` (lists of characters); the
string methods the source uses (`split`, `startsWith`, `includes`,
`lastIndexOf`/`substring`, regex replaces) are implemented below with
structural or fuelled recursion so that every definition evaluates inside the
kernel.  External libraries (turndown, the `Date` constructor, mustache) are
parameters of the embedding; everything written in the repository itself is
translated directly from the source.
-/

namespace WeiboSaver

/-! ## JavaScript string primitives -/

/-- First occurrence split: `splitFirstAux sep s = some (before, after)` when
`sep` occurs in `s`, mirroring the leftmost match of `String.prototype.split`. -/
def splitFirstAux (sep : List Char) : List Char → Option (List Char × List Char)
  | [] => none
  | c :: cs =>
    if sep.isPrefixOf (c :: cs) then some ([], (c :: cs).drop sep.length)
    else
      match splitFirstAux sep cs with
      | some (b, a) => some (c :: b, a)
      | none => none

/-- Fuelled worker for JS `split` (the fuel strictly bounds the number of
separator occurrences, so `length + 1` is always enough). -/
def jsSplitFuel : Nat → List Char → List Char → List (List Char)
  | 0, _, s => [s]
  | Nat.succ n, sep, s =>
    match splitFirstAux sep s with
    | none => [s]
    | some (b, a) => b :: jsSplitFuel n sep a

/-- JS `s.split(sep)` for a non-empty separator. -/
def jsSplit (s sep : String) : List String :=
  (jsSplitFuel (s.data.length + 1) sep.data s.data).map String.mk

/-- JS `s.startsWith(pre)`. -/
def jsStartsWith (s pre : String) : Bool := pre.data.isPrefixOf s.data

/-- Substring occurrence test on character lists. -/
def containsSubL (pat : List Char) : List Char → Bool
  | [] => pat.isEmpty
  | c :: cs => pat.isPrefixOf (c :: cs) || containsSubL pat cs

/-- JS `s.includes(sub)`. -/
def jsIncludes (s sub : String) : Bool := containsSubL sub.data s.data

/-- Suffix of `l` after the last occurrence of `c` (`none` when `c` is absent). -/
def afterLastAux (c : Char) : List Char → Option (List Char)
  | [] => none
  | x :: xs =>
    match afterLastAux c xs with
    | some r => some r
    | none => if x = c then some xs else none

/-- JS `url.substring(url.lastIndexOf("/") + 1)`: with no slash `lastIndexOf`
is `-1` and the whole string is returned. -/
def jsAfterLastSlash (s : String) : String :=
  String.mk ((afterLastAux '/' s.data).getD s.data)

/-- JS truthiness of a string: only `""` is falsy. -/
def jsTruthyS (s : String) : Bool := s != ""

/-- JS truthiness of a possibly-absent string (`undefined`/`null` are falsy). -/
def jsTruthyOS : Option String → Bool
  | none => false
  | some s => jsTruthyS s

/-! ## The URL locators -/

def preString : String := "更多精彩评论:"

def weiboUrlPre : String := "https://weibo.com/"

def mWeiboPre : String := "https://m.weibo.cn/status/"

/-- The segment after the last occurrence of the marker phrase:
`bodyHtml.split(preString).pop()` (the whole body when the marker is absent). -/
def lastMarkerSegment (b : String) : String := (jsSplit b preString).getLastD ""

/-- `segment.split('<a href="')`. -/
def anchorParts (seg : String) : List String := jsSplit seg "<a href=\""

/-- The href the locators read: `segment.split('<a href="')[1].split('">')[0]`
(meaningful when `anchorParts` has at least two entries). -/
def hrefOfSegment (seg : String) : String :=
  (jsSplit ((anchorParts seg).getD 1 "") "\">").headD ""

/-- `getWeiboURLFromMailBody` from `utils.js`.  The chained expression
`bodyHtml.split(preString).pop().split('<a href="')[1].split('">')[0]`
evaluates `[1]` to `undefined` when no anchor opener occurs in the last
marker segment, and the following `.split` then raises a `TypeError`;
that uncaught exception is modelled as `Except.error ()`. -/
def getWeiboURLFromMailBody (bodyHtml : String) : Except Unit (Option String) :=
  match (anchorParts (lastMarkerSegment bodyHtml)).get? 1 with
  | none => .error ()
  | some part1 =>
    let url := (jsSplit part1 "\">").headD ""
    if jsStartsWith url weiboUrlPre then
      .ok (some (mWeiboPre ++ jsAfterLastSlash url))
    else
      .ok none

/-- `extractWeiboUrlFromMailBody` from the refactored text processor
(`src/utils/text-processor.js`): every partial step is guarded and the whole
body sits in a `try`/`catch`, so the function is total and returns `null`
(`none`) instead of throwing. -/
def extractWeiboUrlFromMailBody (bodyHtml : String) : Option String :=
  let urlPart := lastMarkerSegment bodyHtml
  if urlPart = "" then none
  else
    let linkParts := anchorParts urlPart
    if linkParts.length < 2 then none
    else
      let url := (jsSplit (linkParts.getD 1 "") "\">").headD ""
      if jsStartsWith url weiboUrlPre then
        let weiboId0 := jsAfterLastSlash url
        let weiboId :=
          if jsIncludes weiboId0 "\"" then (jsSplit weiboId0 "\"").headD ""
          else weiboId0
        some (mWeiboPre ++ weiboId)
      else
        none

/-! ## Timestamp normalization and regex helpers -/

/-- Characters the JS regex `.` does not match. -/
def isLineTerm (c : Char) : Bool :=
  c = '\n' || c = '\r' || c = '\u2028' || c = '\u2029'

/-- Replace the first occurrence of a character (JS `s.replace(/T/, ' ')`). -/
def replaceFirstCharL (tgt rep : Char) : List Char → List Char
  | [] => []
  | x :: xs => if x = tgt then rep :: xs else x :: replaceFirstCharL tgt rep xs

/-- JS `s.replace(/\..+/, '')`: delete from the first dot that is followed by
at least one non-line-terminator character, through the end of that line. -/
def stripDotTailL : List Char → List Char
  | [] => []
  | x :: xs =>
    if x = '.' && (match xs with | y :: _ => !isLineTerm y | [] => false) then
      xs.dropWhile (fun c => !isLineTerm c)
    else
      x :: stripDotTailL xs

/-- JS `s.replace(/\.+/, '')`: delete the first maximal run of dots. -/
def stripFirstDotsL : List Char → List Char
  | [] => []
  | x :: xs => if x = '.' then xs.dropWhile (fun c => c = '.') else x :: stripFirstDotsL xs

/-- `new Date(...).toISOString().replace(/T/, " ").replace(/\..+/, "")`,
as in `fetchWeibo.js` (the ISO string is the input). -/
def normTs (s : String) : String :=
  String.mk (stripDotTailL (replaceFirstCharL 'T' ' ' s.data))

/-- `new Date(...).toISOString().replace(/T/, ' ').replace(/\.+/, '')`,
as in `weibo-parser.js` / `weibo-fetcher.js` (note the dot-run regex). -/
def normTsDots (s : String) : String :=
  String.mk (stripFirstDotsL (replaceFirstCharL 'T' ' ' s.data))

/-- One attempted match of `/href="([^"]+)"/` at the current position:
returns the full match and the remainder after it. -/
def hrefMatchAt (l : List Char) : Option (List Char × List Char) :=
  if ("href=\"".data).isPrefixOf l then
    let rest := l.drop 6
    let cap := rest.takeWhile (fun c => c ≠ '"')
    if cap ≠ [] ∧ cap.length < rest.length then
      some ("href=\"".data ++ cap ++ ['"'], rest.drop (cap.length + 1))
    else none
  else none

/-- Fuelled global scan for `/href="([^"]+)"/g`. -/
def jsMatchHrefsFuel : Nat → List Char → List (List Char)
  | 0, _ => []
  | _ + 1, [] => []
  | n + 1, c :: cs =>
    match hrefMatchAt (c :: cs) with
    | some (m, rest) => m :: jsMatchHrefsFuel n rest
    | none => jsMatchHrefsFuel n cs

/-- JS `outerText.match(/href="([^"]+)"/g)` (`none` models the `null` result, so
that the source's `if (hrefs)` guard is represented). -/
def jsMatchHrefs (s : String) : Option (List String) :=
  let ms := jsMatchHrefsFuel s.data.length s.data
  if ms = [] then none else some (ms.map String.mk)

/-- `List.findSome?`-based tail matcher used by the lazy regex scans: the first
tail in `tails` that is a prefix of `l` wins (mirroring backtracking priority). -/
def tailAt (tails : List (List Char)) (l : List Char) : Option Nat :=
  tails.findSome? (fun t => if t.isPrefixOf l then some t.length else none)

/-- Lazy scan of `.*?` followed by one of `tails`: consume the fewest
non-line-terminator characters until a tail matches, returning the remainder
after the tail. -/
def lazyScan (tails : List (List Char)) : List Char → Option (List Char)
  | [] => none
  | c :: cs =>
    match tailAt tails (c :: cs) with
    | some k => some ((c :: cs).drop k)
    | none => if isLineTerm c then none else lazyScan tails cs

/-- Fuelled global delete of `opener(.*?)tail` matches, replacing each with
the empty string and advancing one character when a match attempt fails. -/
def regexDeleteFuel (opener : List Char) (tails : List (List Char)) :
    Nat → List Char → List Char
  | 0, l => l
  | _ + 1, [] => []
  | n + 1, c :: cs =>
    if opener.isPrefixOf (c :: cs) then
      match lazyScan tails ((c :: cs).drop opener.length) with
      | some rest => regexDeleteFuel opener tails n rest
      | none => c :: regexDeleteFuel opener tails n cs
    else
      c :: regexDeleteFuel opener tails n cs

/-- Apply a global `opener(.*?)tails` deletion to a string. -/
def regexDelete (opener : String) (tails : List String) (s : String) : String :=
  String.mk (regexDeleteFuel opener.data (tails.map String.data) s.data.length s.data)

/-- Delete every occurrence of a literal pattern (JS `replace(/lit/g, '')`). -/
def deleteAllLit (pat s : String) : String := String.join (jsSplit s pat)

/-- `cleanWeiboText` from the text processor: the six global regex replaces
applied in source order.  `src="(.*?)"?\/?>` can close with `"/>`, `">`, `/>`
or `>`; the tag replaces close at the first `>`. -/
def cleanWeiboText (text : String) : String :=
  let s1 := regexDelete "src=\"" ["\"/>", "\">", "/>", ">"] text
  let s2 := regexDelete "<span" ["/>", ">"] s1
  let s3 := regexDelete "<a" ["/>", ">"] s2
  let s4 := deleteAllLit "</span>" s3
  let s5 := deleteAllLit "</a>" s4
  deleteAllLit "<img alt=" s5

/-! ## Filename and title helpers (`text-processor.js`) -/

/-- The characters removed by `text.replace(/[\\\/:*?"<>|]/g, '')`. -/
def badFilenameChar (c : Char) : Bool :=
  c = '\\' || c = '/' || c = ':' || c = '*' || c = '?' || c = '"' || c = '<' ||
  c = '>' || c = '|'

/-- JS `\s` (the whitespace class members that occur in practice). -/
def jsWhitespace (c : Char) : Bool :=
  c = ' ' || c = '\t' || c = '\n' || c = '\r' || c = '\x0b' || c = '\x0c' ||
  c = '\u00A0' || c = '\uFEFF'

/-- `createFilenameFromTitle` from the text processor. -/
def createFilenameFromTitle (text : String) : String :=
  let f1 := String.mk (text.data.filter (fun c => !badFilenameChar c))
  let f2 := String.mk (f1.data.filter (fun c => c ≠ '#'))
  let f3 := (jsSplit f2 "(https").headD ""
  let f4 := (jsSplit f3 "![[").headD ""
  String.mk (f4.data.filter (fun c => !jsWhitespace c))

/-- `truncateText` from the text processor (default `maxLength = 40`). -/
def truncateText (text : String) (maxLength : Nat) : String :=
  if text.length ≤ maxLength then text else String.mk (text.data.take maxLength)

/-- `generatePostTitle` from the text processor. -/
def generatePostTitle (text username : String) : String :=
  createFilenameFromTitle (username ++ "-" ++ truncateText text 40)

/-! ## Data model for the embedded `$render_data` object

Typed views of the JSON shapes the parsers read.  A field an access chain
reads without a guard is typed as present; a field the source guards with
truthiness checks or optional chaining is an `Option`. -/

/-- A user object; `screen_name` may be absent. -/
structure WUser where
  screen_name : Option String
deriving DecidableEq

/-- The long-form text payload. -/
structure LongText where
  longTextContent : String
deriving DecidableEq

/-- The `large` variant of a picture entry. -/
structure PicLarge where
  url : String
deriving DecidableEq

/-- A picture entry of a `pics` list; `videoSrc` is present exactly on
live-photo/video entries. -/
structure Pic where
  videoSrc : Option String
  large : Option PicLarge
  url : String
deriving DecidableEq

/-- `page_info.media_info`. -/
structure MediaInfo where
  stream_url : String
  h5_url : Option String
deriving DecidableEq

/-- `page_info`. -/
structure PageInfo where
  type : Option String
  media_info : Option MediaInfo
  page_url : Option String
deriving DecidableEq

/-- A retweeted (original) status. -/
structure RetweetedStatus where
  text : String
  isLongText : Bool
  longText : Option LongText
  user : Option WUser
  pics : Option (List Pic)
  page_info : Option PageInfo
deriving DecidableEq

/-- The outer status object. -/
structure Status where
  created_at : String
  text : String
  longText : Option LongText
  user : Option WUser
  retweeted_status : Option RetweetedStatus
  pics : Option (List Pic)
  page_info : Option PageInfo
deriving DecidableEq

/-- `$render_data` with the `status` field present (the shape
`fetchWeibo.js` dereferences without a guard). -/
structure AllData where
  status : Status
deriving DecidableEq

/-- `$render_data` as the refactored parser sees it: `status` may be absent,
in which case it throws `'Invalid Weibo data structure'`. -/
structure RawData where
  status : Option Status
deriving DecidableEq

/-- A dynamically typed field value: the fallback object stores the string
`''` where the parsers store arrays. -/
inductive JsField where
  | str (s : String)
  | arr (l : List String)
deriving DecidableEq

/-- Whether a `JsField` holds an array (JS `Array.isArray`). -/
def JsField.isArray : JsField → Bool
  | .arr _ => true
  | .str _ => false

/-- JS `.length` of a field value. -/
def JsField.jsLength : JsField → Nat
  | .str s => s.length
  | .arr l => l.length

/-- JS truthiness of a field value (arrays are always truthy). -/
def JsField.jsTruthy : JsField → Bool
  | .str s => s != ""
  | .arr _ => true

/-- The record both Weibo parsers and both fallback synthesizers produce. -/
structure WeiboData where
  originTextMD : String
  originUser : String
  outerTextMD : String
  outerUser : String
  largeImgs : JsField
  createdAt : String
  videoPageUrls : JsField
deriving DecidableEq

/-- External collaborators of the parsers: `turndown` (HTML→Markdown) and the
composite `new Date(~).toISOString()`. -/
structure ParseEnv where
  turndown : String → String
  jsDateISO : String → String

/-- The list/array projection of `largeImgs`. -/
def imagesOf (w : WeiboData) : List String :=
  match w.largeImgs with
  | .arr l => l
  | .str _ => []

/-- The list/array projection of `videoPageUrls`. -/
def videosOf (w : WeiboData) : List String :=
  match w.videoPageUrls with
  | .arr l => l
  | .str _ => []

/-! ## `parseWeiboData` (`fetchWeibo.js`, current version) -/

/-- The retweeted text choice: `rt.isLongText && rt.longText` selects
`longText.longTextContent`, otherwise the (possibly truncated) `text`. -/
def originTextOf (rt : RetweetedStatus) : String :=
  match rt.longText with
  | some lt => if rt.isLongText then lt.longTextContent else rt.text
  | none => rt.text

/-- `if (u && u.screen_name) name else "unknown"`. -/
def screenNameOrUnknown (u : Option WUser) : String :=
  match u with
  | some uu =>
    match uu.screen_name with
    | some sn => if jsTruthyS sn then sn else "unknown"
    | none => "unknown"
  | none => "unknown"

/-- `e.large ? e.large.url : e.url`. -/
def effPicUrl (e : Pic) : String :=
  match e.large with
  | some lg => lg.url
  | none => e.url

/-- The `pics` list the image block reads: the retweeted post's list on a
repost, else the outer one. -/
def selectedPics (st : Status) : Option (List Pic) :=
  match st.retweeted_status with
  | some rt => rt.pics
  | none => st.pics

/-- The image URLs drawn from the picture list:
`allPics.map(e => !e.videoSrc ? (e.large ? e.large.url : e.url) : undefined)
  .filter(e => !!e)` guarded by `allPics && allPics.length > 0`. -/
def picsImgUrls (allPics : Option (List Pic)) : List String :=
  match allPics with
  | some l =>
    if 0 < l.length then
      l.filterMap (fun e =>
        if jsTruthyOS e.videoSrc then none
        else if jsTruthyS (effPicUrl e) then some (effPicUrl e) else none)
    else []
  | none => []

def surlMarker : String := "<span class=\"surl-text\">查看图片</span>"

def sinaurlPre : String := "https://weibo.cn/sinaurl?u="

/-- The link-only-image affordance: when the outer text carries the
`查看图片` marker, every `href="~"` whose target starts with the sinaurl
redirect is appended to the image list. -/
def surlImgUrls (outerText : String) : List String :=
  if jsIncludes outerText surlMarker then
    match jsMatchHrefs outerText with
    | some hrefs =>
      hrefs.filterMap (fun href =>
        let url := (jsSplit href "\"").getD 1 ""
        if jsStartsWith url sinaurlPre then some url else none)
    | none => []
  else []

/-- Per-picture video sources:
`pics.map(e => e.videoSrc).filter(e => !!e)`. -/
def picsVideoSrcs (pics : List Pic) : List String :=
  pics.filterMap (fun e =>
    match e.videoSrc with
    | some v => if jsTruthyS v then some v else none
    | none => none)

/-- The `pics` list the video block scans:
`isRetweet ? rt?.pics ?? [] : status.pics ?? []`. -/
def videoScanPics (st : Status) : List Pic :=
  match st.retweeted_status with
  | some rt => rt.pics.getD []
  | none => st.pics.getD []

/-- The `page_info.media_info.stream_url` candidates pushed when the picture
scan found nothing: outer post first, then (on a repost) the retweeted post. -/
def streamCands (st : Status) : List String :=
  (match st.page_info with
   | some pi =>
     match pi.media_info with
     | some mi => [mi.stream_url]
     | none => []
   | none => []) ++
  (match st.retweeted_status with
   | some rt =>
     match rt.page_info with
     | some pi =>
       match pi.media_info with
       | some mi => [mi.stream_url]
       | none => []
     | none => []
   | none => [])

def cdnPre : String := "https://f.video.weibocdn.com/"

/-- The video block of `parseWeiboData`: picture-scan candidates, falling back
to the stream-URL candidates only when the scan is empty, then filtered by the
video-CDN host. -/
def videoPageUrlsOf (st : Status) : List String :=
  let mixContentUrls :=
    if (picsVideoSrcs (videoScanPics st)).length = 0 then streamCands st
    else picsVideoSrcs (videoScanPics st)
  mixContentUrls.filter (fun e => jsStartsWith e cdnPre)

/-- `parseWeiboData` from `fetchWeibo.js` (current version).  Every access
chain of the source is either guarded there or typed as present here, so the
translation is total. -/
def parseWeiboData (env : ParseEnv) (allData : AllData) : WeiboData :=
  let st := allData.status
  let createdAt := normTs (env.jsDateISO st.created_at)
  let originTextMD :=
    match st.retweeted_status with
    | some rt => env.turndown (originTextOf rt)
    | none => ""
  let originUser :=
    match st.retweeted_status with
    | some rt => screenNameOrUnknown rt.user
    | none => ""
  let outerText := st.text
  let outerTextMD := env.turndown outerText
  let outerUser := screenNameOrUnknown st.user
  let largeImgs := picsImgUrls (selectedPics st) ++ surlImgUrls outerText
  { originTextMD := originTextMD
    originUser := originUser
    outerTextMD := outerTextMD
    outerUser := outerUser
    largeImgs := JsField.arr largeImgs
    createdAt := createdAt
    videoPageUrls := JsField.arr (videoPageUrlsOf st) }

/-- The fallback object built in `fetchWeibo`'s `catch` block
(`fetchWeibo.js` lines 28–37): `uuid` is the fresh `uuidv4()` value, `err`
the stringified caught error, `nowISO` the current `toISOString()` value. -/
def fallbackWeiboData (uuid err nowISO mailBody : String) : WeiboData :=
  { originTextMD := mailBody
    originUser := "MailBody"
    outerTextMD := uuid ++ err
    outerUser := "Error"
    largeImgs := JsField.str ""
    createdAt := normTs nowISO
    videoPageUrls := JsField.arr [] }

/-- `createFallbackWeiboData` from `weibo-fetcher.js` (same shape; its
timestamp regex is `/\.+/`, and it stringifies `error.message`). -/
def createFallbackWeiboData (uuid errMsg nowISO mailBody : String) : WeiboData :=
  { originTextMD := mailBody
    originUser := "MailBody"
    outerTextMD := uuid ++ errMsg
    outerUser := "Error"
    largeImgs := JsField.str ""
    createdAt := normTsDots nowISO
    videoPageUrls := JsField.arr [] }

/-! ## `parseWeiboData` (`weibo-parser.js`, service layer) -/

/-- First truthy value of a JS `||` chain over possibly-absent strings
(the trailing `|| ''` / `if (videoUrl)` guards make the all-falsy case
collapse to `none`/`''`). -/
def firstTruthy : List (Option String) → Option String
  | [] => none
  | o :: rest => if jsTruthyOS o then o else firstTruthy rest

/-- `user.screen_name || 'Unknown'` after `status.user || {}`. -/
def svcUserName (u : Option WUser) : String :=
  match u with
  | some uu =>
    match uu.screen_name with
    | some sn => if jsTruthyS sn then sn else "Unknown"
    | none => "Unknown"
  | none => "Unknown"

/-- `pic.large?.url || pic.url`. -/
def svcPicUrl (pic : Pic) : String :=
  match pic.large with
  | some lg => if jsTruthyS lg.url then lg.url else pic.url
  | none => pic.url

/-- `(status.pics || []).map(pic => pic.large?.url || pic.url).filter(Boolean)`. -/
def svcLargeImgs (pics : Option (List Pic)) : List String :=
  ((pics.getD []).map svcPicUrl).filter jsTruthyS

/-- `media_info?.stream_url || media_info?.h5_url || page_info.page_url`. -/
def svcPageVideoUrl (pi : PageInfo) : Option String :=
  firstTruthy
    [pi.media_info.map MediaInfo.stream_url,
     pi.media_info.bind MediaInfo.h5_url,
     pi.page_url]

/-- The video URL pushed for a status whose `page_info.type === 'video'`. -/
def svcVideoUrls (page_info : Option PageInfo) : List String :=
  match page_info with
  | some pi =>
    if pi.type = some "video" then
      match svcPageVideoUrl pi with
      | some v => [v]
      | none => []
    else []
  | none => []

namespace WeiboParser

/-- `parseWeiboData` from `weibo-parser.js`: throws
`'Invalid Weibo data structure'` when the top-level `status` is absent;
otherwise total.  Text goes through `cleanWeiboText` and then the external
`turndown`.  The final `if (!weiboData.originTextMD)` resets both origin
fields to `''` whenever the retweet markdown is falsy. -/
def parseWeiboData (env : ParseEnv) (rawData : RawData) : Except String WeiboData :=
  match rawData.status with
  | none => .error "Invalid Weibo data structure"
  | some status =>
    let userName := svcUserName status.user
    let text := (firstTruthy [some status.text, status.longText.map LongText.longTextContent]).getD ""
    let textMD := env.turndown (cleanWeiboText text)
    let largeImgs0 := svcLargeImgs status.pics
    let videoPageUrls0 := svcVideoUrls status.page_info
    let retweetPart :
        List String × List String × String × String :=
      match status.retweeted_status with
      | some rt =>
        let retweetUserName := svcUserName rt.user
        let retweetText := (firstTruthy [some rt.text, rt.longText.map LongText.longTextContent]).getD ""
        let retweetTextMD := env.turndown (cleanWeiboText retweetText)
        (svcLargeImgs rt.pics, svcVideoUrls rt.page_info, retweetTextMD, retweetUserName)
      | none => ([], [], "", "")
    let largeImgs := largeImgs0 ++ retweetPart.1
    let videoPageUrls := videoPageUrls0 ++ retweetPart.2.1
    let createdAt := normTsDots (env.jsDateISO status.created_at)
    let originTextMD0 := retweetPart.2.2.1
    let originUser0 := retweetPart.2.2.2
    let origin :=
      if jsTruthyS originTextMD0 then (originTextMD0, originUser0) else ("", "")
    .ok
      { originTextMD := origin.1
        originUser := origin.2
        outerTextMD := textMD
        outerUser := userName
        largeImgs := JsField.arr largeImgs
        createdAt := createdAt
        videoPageUrls := JsField.arr videoPageUrls }

end WeiboParser

/-! ## Media acquisition (`media-downloader.js`) -/

/-- The collaborators of the downloader: per-URL HTTP status and the
`Date.now()` reading used in filenames. -/
structure DLEnv where
  status : String → Nat
  now : Nat

/-- The settlement of one download promise: fulfilled with the value the
stream handler resolved (`imageTitle`/`videoTitle`, possibly `null`), or
rejected with the failing URL. -/
inductive Settled where
  | fulfilled (v : Option String)
  | rejected (url : String)
deriving DecidableEq

/-- `url.match(/\.[0-9a-z]+$/i)?.[0] || '.jpg'`: the trailing extension when
everything after the last dot is alphanumeric and non-empty, else `.jpg`. -/
def sniffExt (url : String) : String :=
  match afterLastAux '.' url.data with
  | some tail =>
    if !tail.isEmpty && tail.all Char.isAlphanum then "." ++ String.mk tail
    else ".jpg"
  | none => ".jpg"

/-- The per-item settlements of `downloadImages`: an invalid (falsy) URL is
resolved with a `null` title, a non-200 response rejects that single item,
and a 200 response resolves with the generated filename. -/
def downloadImageResults (env : DLEnv) (urls : List String) (baseTitle : String) :
    List Settled :=
  if urls.length = 0 then []
  else
    urls.enum.map (fun p =>
      if p.2 = "" then Settled.fulfilled none
      else if env.status p.2 ≠ 200 then Settled.rejected p.2
      else
        Settled.fulfilled
          (some (baseTitle ++ "-" ++ toString env.now ++ "-" ++ toString p.1 ++ sniffExt p.2)))

/-- `downloadImages` from `media-downloader.js`: the `Promise.allSettled`
join keeps every fulfilled value (including the `null` of an invalid URL)
and drops the rejected ones. -/
def downloadImages (env : DLEnv) (urls : List String) (baseTitle : String) :
    List (Option String) :=
  (downloadImageResults env urls baseTitle).filterMap (fun r =>
    match r with
    | .fulfilled v => some v
    | .rejected _ => none)

/-- The URLs `downloadImages` reports as failed (logged, not returned). -/
def downloadImagesFailed (env : DLEnv) (urls : List String) (baseTitle : String) :
    List String :=
  (downloadImageResults env urls baseTitle).filterMap (fun r =>
    match r with
    | .fulfilled _ => none
    | .rejected u => some u)

/-- The per-item settlements of `downloadVideos` (fixed `.mp4` extension). -/
def downloadVideoResults (env : DLEnv) (urls : List String) (baseTitle : String) :
    List Settled :=
  if urls.length = 0 then []
  else
    urls.enum.map (fun p =>
      if p.2 = "" then Settled.fulfilled none
      else if env.status p.2 ≠ 200 then Settled.rejected p.2
      else
        Settled.fulfilled
          (some (baseTitle ++ "-" ++ toString env.now ++ "-" ++ toString p.1 ++ ".mp4")))

/-- `downloadVideos` from `media-downloader.js`. -/
def downloadVideos (env : DLEnv) (urls : List String) (baseTitle : String) :
    List (Option String) :=
  (downloadVideoResults env urls baseTitle).filterMap (fun r =>
    match r with
    | .fulfilled v => some v
    | .rejected _ => none)

/-! ## Heuristic image extraction (`rednote-fetcher.js`) -/

/-- An image element, seen through the four attributes the extractor reads
(`none` = attribute absent). -/
structure ImgEl where
  src : Option String
  dataSrc : Option String
  dataOriginal : Option String
  dataUrl : Option String
deriving DecidableEq

/-- The fetched document, seen through the two element queries the image
extractor performs: the `.note-slider-img` selector matches and the
all-`img` fallback. -/
structure ImgDoc where
  noteSliderImgs : List ImgEl
  allImgs : List ImgEl
deriving DecidableEq

/-- `img.getAttribute('data-src') || img.getAttribute('src') ||
img.getAttribute('data-original') || img.getAttribute('data-url')`. -/
def imgSrcOf (el : ImgEl) : Option String :=
  if jsTruthyOS el.dataSrc then el.dataSrc
  else if jsTruthyOS el.src then el.src
  else if jsTruthyOS el.dataOriginal then el.dataOriginal
  else el.dataUrl

/-- `addImageToArray` from `rednote-fetcher.js`. -/
def addImageToArray (el : ImgEl) (images : List String) : List String :=
  match imgSrcOf el with
  | none => images
  | some s =>
    if jsTruthyS s && jsIncludes s "http" && !jsIncludes s "avatar" &&
        !jsIncludes s "picasso" && !images.contains s then
      images ++ [s]
    else images

/-- `elements.forEach(img => addImageToArray(img, images))`. -/
def extractFromEls (els : List ImgEl) (images0 : List String) : List String :=
  els.foldl (fun acc el => addImageToArray el acc) images0

/-- `extractImages` from `rednote-fetcher.js`: the (singleton) specific
selector list first; if that leaves the image list empty, every `img`
element is scanned with the same attribute rule. -/
def extractImages (doc : ImgDoc) : List String :=
  let images :=
    if 0 < doc.noteSliderImgs.length then extractFromEls doc.noteSliderImgs []
    else []
  if images.length = 0 then extractFromEls doc.allImgs [] else images

/-! ## The orchestrator (`weibo-processor.js`) -/

/-- The rendered template data of `processWeiboPost` (the placeholders of the
saved Markdown record). -/
structure TemplateData where
  title : String
  site : String
  date_saved : String
  user : String
  created_at : String
  url : String
  outer_text : String
  origin_user : String
  origin_text : String
  pics : String
  videos : String
deriving DecidableEq

/-- The one record a pipeline run saves: the rendered content plus the data
it was rendered from. -/
structure SavedRecord where
  data : TemplateData
  content : String

/-- The world the orchestrator runs against: the page fetch outcome, the
fresh `uuidv4()` value, the current clock, the parser collaborators, the
download collaborators, and the mustache renderer. -/
structure FetchedPage where
  render_data : Option RawData

structure OrchEnv where
  page : Except String FetchedPage
  uuid : String
  nowISO : String
  parseEnv : ParseEnv
  dl : DLEnv
  render : TemplateData → String

/-- `fetchWeiboContent` from `weibo-fetcher.js`: propagates the fetch error
and throws `'Could not extract Weibo data from page'` when the page defines
no `$render_data`. -/
def fetchWeiboContent (page : Except String FetchedPage) : Except String RawData :=
  match page with
  | .error e => .error e
  | .ok p =>
    match p.render_data with
    | none => .error "Could not extract Weibo data from page"
    | some d => .ok d

/-- `generateWeiboTitle` from `weibo-parser.js`. -/
def generateWeiboTitle (w : WeiboData) : String :=
  generatePostTitle w.outerTextMD w.outerUser

/-- The `Array.isArray` guard inside the downloader, applied to a dynamic
field: a string value is not an array, so the batch returns `[]`. -/
def downloadImagesJF (env : DLEnv) (f : JsField) (title : String) :
    List (Option String) :=
  match f with
  | .arr l => downloadImages env l title
  | .str _ => []

def downloadVideosJF (env : DLEnv) (f : JsField) (title : String) :
    List (Option String) :=
  match f with
  | .arr l => downloadVideos env l title
  | .str _ => []

/-- JS string interpolation of a possibly-`null` value. -/
def jsShowOpt : Option String → String
  | some s => s
  | none => "null"

/-- JS `Array.prototype.join`. -/
def joinSep (sep : String) : List String → String
  | [] => ""
  | x :: xs => xs.foldl (fun acc y => acc ++ sep ++ y) x

/-- `processWeiboPost` from the Weibo processor: fetch and parse inside a
`try` whose `catch` routes any error to `createFallbackWeiboData`, then
title generation, the two download batches, and the template data handed to
the renderer.  The file-system collaborators (directory creation, template
loading, saving) are out of scope and modelled as total, so the function
produces exactly one record. -/
def processWeiboPost (env : OrchEnv) (mailBody weiboUrl : String) : SavedRecord :=
  let weiboData :=
    match (fetchWeiboContent env.page).bind (WeiboParser.parseWeiboData env.parseEnv) with
    | .ok d => d
    | .error e => createFallbackWeiboData env.uuid e env.nowISO mailBody
  let title := generateWeiboTitle weiboData
  let downloadedImages :=
    if weiboData.largeImgs.jsTruthy && 0 < weiboData.largeImgs.jsLength then
      downloadImagesJF env.dl weiboData.largeImgs title
    else []
  let downloadedVideos :=
    if weiboData.videoPageUrls.jsTruthy && 0 < weiboData.videoPageUrls.jsLength then
      downloadVideosJF env.dl weiboData.videoPageUrls title
    else []
  let imageMarkdown :=
    joinSep "\n\n" (downloadedImages.map (fun f =>
      "![" ++ jsShowOpt f ++ "](images/" ++ jsShowOpt f ++ ")"))
  let videoMarkdown :=
    joinSep "\n\n" (downloadedVideos.map (fun f =>
      "[" ++ jsShowOpt f ++ "](videos/" ++ jsShowOpt f ++ ")"))
  let templateData : TemplateData :=
    { title := weiboData.outerUser ++ "的微博"
      site := "weibo.com"
      date_saved := normTsDots env.nowISO
      user := weiboData.outerUser
      created_at := weiboData.createdAt
      url := weiboUrl
      outer_text := weiboData.outerTextMD
      origin_user := weiboData.originUser
      origin_text := weiboData.originTextMD
      pics := imageMarkdown
      videos := videoMarkdown }
  { data := templateData, content := env.render templateData }

/-! ## Claims about the URL locators (C1, C2) -/

/-- `getD` agrees with a successful `get?`. -/
theorem getD_of_getQ {α : Type} (l : List α) (n : Nat) (d a : α)
    (h : l.get? n = some a) : l.getD n d = a := by
  simp only [List.get?_eq_getElem?] at h
  simp [List.getD_eq_getElem?_getD, h]

/-- C1, counterexample.  The claim says every body lacking the marker phrase
yields `NotFound` and the locator never throws uncaught: but a body without
the marker whose whole text contains a valid anchor yields a rebuilt URL, a
missing-quote-terminator href still yields a URL, and the `utils.js` locator
raises a `TypeError` on any body with no anchor after the last marker. -/
theorem locate_c1_counterexample :
    extractWeiboUrlFromMailBody "<a href=\"https://weibo.com/1/X\">" =
      some "https://m.weibo.cn/status/X" ∧
    extractWeiboUrlFromMailBody "更多精彩评论:<a href=\"https://weibo.com/1/ABC" =
      some "https://m.weibo.cn/status/ABC" ∧
    getWeiboURLFromMailBody "hello" = .error () :=
  ⟨by decide, by decide, rfl⟩

/-- C1, amended.  For every raw body whose segment after the last marker
occurrence (the whole body when the marker is absent) contains no
anchor-opener, `extractWeiboUrlFromMailBody` returns `NotFound` (`null`)
without throwing, while the legacy `getWeiboURLFromMailBody` throws a
`TypeError`; when an anchor is present but its href does not begin with
`https://weibo.com/`, both return `null`. -/
theorem locate_c1_amended (b : String) :
    ((anchorParts (lastMarkerSegment b)).length < 2 →
      extractWeiboUrlFromMailBody b = none ∧
      getWeiboURLFromMailBody b = .error ()) ∧
    (2 ≤ (anchorParts (lastMarkerSegment b)).length →
      jsStartsWith (hrefOfSegment (lastMarkerSegment b)) weiboUrlPre = false →
      extractWeiboUrlFromMailBody b = none ∧
      getWeiboURLFromMailBody b = .ok none) := by
  constructor
  · intro hlen
    refine ⟨?_, ?_⟩
    · unfold extractWeiboUrlFromMailBody
      by_cases h0 : lastMarkerSegment b = ""
      · simp [h0]
      · simp only [h0, if_false]
        have : ¬ (2 ≤ (anchorParts (lastMarkerSegment b)).length) := by omega
        simp [show (anchorParts (lastMarkerSegment b)).length < 2 from by omega]
    · unfold getWeiboURLFromMailBody
      rw [List.get?_eq_none.2 (by omega)]
  · intro hlen hpre
    refine ⟨?_, ?_⟩
    · unfold extractWeiboUrlFromMailBody
      by_cases h0 : lastMarkerSegment b = ""
      · simp [h0]
      · rw [if_neg h0, if_neg (by omega)]
        show (if jsStartsWith (hrefOfSegment (lastMarkerSegment b)) weiboUrlPre = true
              then _ else none) = none
        rw [if_neg (by rw [hpre]; exact Bool.false_ne_true)]
    · unfold getWeiboURLFromMailBody
      cases h : (anchorParts (lastMarkerSegment b)).get? 1 with
      | none => exact absurd (List.get?_eq_none.1 h) (by omega)
      | some a =>
        have ha : (anchorParts (lastMarkerSegment b)).getD 1 "" = a :=
          getD_of_getQ _ _ _ _ h
        have hpre2 : jsStartsWith ((jsSplit a "\">").headD "") weiboUrlPre = false := by
          unfold hrefOfSegment at hpre
          rw [ha] at hpre
          exact hpre
        show (if jsStartsWith ((jsSplit a "\">").headD "") weiboUrlPre = true
              then _ else Except.ok none) = Except.ok none
        rw [if_neg (by rw [hpre2]; exact Bool.false_ne_true)]

/-- C1, amended, witness: a body with no anchor (first implication) and a
body whose anchor href is not a weibo.com URL (second implication). -/
theorem locate_c1_amended_witness :
    ((anchorParts (lastMarkerSegment "hello")).length < 2 ∧
      extractWeiboUrlFromMailBody "hello" = none ∧
      getWeiboURLFromMailBody "hello" = .error ()) ∧
    (2 ≤ (anchorParts (lastMarkerSegment
        "更多精彩评论:<a href=\"https://example.com/x\">z</a>")).length ∧
      extractWeiboUrlFromMailBody
        "更多精彩评论:<a href=\"https://example.com/x\">z</a>" = none ∧
      getWeiboURLFromMailBody
        "更多精彩评论:<a href=\"https://example.com/x\">z</a>" = .ok none) :=
  ⟨⟨by decide,
    ((locate_c1_amended "hello").1 (by decide)).1,
    ((locate_c1_amended "hello").1 (by decide)).2⟩,
   ⟨by decide,
    ((locate_c1_amended "更多精彩评论:<a href=\"https://example.com/x\">z</a>").2
      (by decide) (by decide)).1,
    ((locate_c1_amended "更多精彩评论:<a href=\"https://example.com/x\">z</a>").2
      (by decide) (by decide)).2⟩⟩

/-- C2.  When the segment after the last marker occurrence contains an anchor
whose href begins with `https://weibo.com/`, the locator returns the mobile
URL rebuilt from the identifier after the href's last path separator. -/
theorem locate_c2_valid_anchor (b : String)
    (hlen : 2 ≤ (anchorParts (lastMarkerSegment b)).length)
    (hpre : jsStartsWith (hrefOfSegment (lastMarkerSegment b)) weiboUrlPre = true) :
    getWeiboURLFromMailBody b =
      .ok (some (mWeiboPre ++ jsAfterLastSlash (hrefOfSegment (lastMarkerSegment b)))) := by
  unfold getWeiboURLFromMailBody
  cases h : (anchorParts (lastMarkerSegment b)).get? 1 with
  | none => exact absurd (List.get?_eq_none.1 h) (by omega)
  | some a =>
    have ha : (anchorParts (lastMarkerSegment b)).getD 1 "" = a :=
      getD_of_getQ _ _ _ _ h
    have hhref : hrefOfSegment (lastMarkerSegment b) = (jsSplit a "\">").headD "" := by
      unfold hrefOfSegment
      rw [ha]
    have hpre2 : jsStartsWith ((jsSplit a "\">").headD "") weiboUrlPre = true := by
      rw [← hhref]
      exact hpre
    show (if jsStartsWith ((jsSplit a "\">").headD "") weiboUrlPre = true
          then Except.ok (some (mWeiboPre ++ jsAfterLastSlash ((jsSplit a "\">").headD "")))
          else Except.ok none) =
      Except.ok (some (mWeiboPre ++ jsAfterLastSlash (hrefOfSegment (lastMarkerSegment b))))
    rw [if_pos hpre2, hhref]

/-- C2, witness: the scenario body from the specification yields
`https://m.weibo.cn/status/ABCdef`. -/
theorem locate_c2_scenario_witness :
    getWeiboURLFromMailBody
        "更多精彩评论:...<a href=\"https://weibo.com/1/ABCdef\">link</a>" =
      .ok (some "https://m.weibo.cn/status/ABCdef") := by
  have h := locate_c2_valid_anchor
    "更多精彩评论:...<a href=\"https://weibo.com/1/ABCdef\">link</a>"
    (by decide) (by decide)
  rw [h]
  exact congrArg (fun s => Except.ok (some s)) (by decide)

/-! ## Sample inputs used by the witnesses -/

/-- A concrete `ParseEnv` whose external collaborators are identities. -/
def idParseEnv : ParseEnv := ⟨fun s => s, fun s => s⟩

def stC3 : Status := ⟨"2025-01-02T03:04:05.678Z", "hi", none, none, none, none, none⟩

def rawC3 : RawData := ⟨some stC3⟩

def wC3 : WeiboData :=
  ⟨"", "", "hi", "Unknown", JsField.arr [], "2025-01-02 03:04:05678Z", JsField.arr []⟩

def dC3 : AllData := ⟨stC3⟩

def rtC4 : RetweetedStatus := ⟨"<p>trunc</p>", true, some ⟨"full text"⟩, none, none, none⟩

def dC4 : AllData := ⟨⟨"2025-01-02T03:04:05.678Z", "outer", none, none, some rtC4, none, none⟩⟩

def dC5 : AllData :=
  ⟨⟨"2025-01-02T03:04:05.678Z", "hello", none, none, none,
    some [⟨none, none, "http://img1.jpg"⟩], none⟩⟩

def dC6 : AllData :=
  ⟨⟨"t", "x", none, none, none,
    some [⟨some "https://f.video.weibocdn.com/v1.mp4", none, "u"⟩],
    some ⟨none, some ⟨"https://other/stream", none⟩, none⟩⟩⟩

def dC6b : AllData :=
  ⟨⟨"t", "x", none, none, none, none,
    some ⟨none, some ⟨"https://f.video.weibocdn.com/s2.mp4", none⟩, none⟩⟩⟩

/-! ## Claims about the produced records (C3, C4, C5, C6, C7) -/

/-- C3, counterexample.  The claim says every record, including the fallback
ones, carries `images`/`videos` as sequences; but both fallback synthesizers
set `largeImgs` to the empty string, which is not an array. -/
theorem post_fields_c3_counterexample :
    (fallbackWeiboData "u" "err" "2025-01-02T03:04:05.678Z" "body").largeImgs.isArray
      = false ∧
    (createFallbackWeiboData "u" "err" "2025-01-02T03:04:05.678Z" "body").largeImgs.isArray
      = false :=
  ⟨rfl, rfl⟩

/-- C3, amended.  Both parsers always produce `images` and `videos` as arrays,
and the fallback synthesizers produce `videos` as an (empty) array; but the
fallback `images` field is the empty string `''` (a non-sequence whose
`.length` is `0`), not an empty array. -/
theorem post_fields_c3_amended (env : ParseEnv) (d : AllData) (raw : RawData)
    (w : WeiboData) (u e n b : String)
    (hok : WeiboParser.parseWeiboData env raw = .ok w) :
    (parseWeiboData env d).largeImgs.isArray = true ∧
    (parseWeiboData env d).videoPageUrls.isArray = true ∧
    w.largeImgs.isArray = true ∧
    w.videoPageUrls.isArray = true ∧
    (fallbackWeiboData u e n b).videoPageUrls = JsField.arr [] ∧
    (fallbackWeiboData u e n b).largeImgs = JsField.str "" ∧
    (createFallbackWeiboData u e n b).videoPageUrls = JsField.arr [] ∧
    (createFallbackWeiboData u e n b).largeImgs = JsField.str "" := by
  have hw : w.largeImgs.isArray = true ∧ w.videoPageUrls.isArray = true := by
    cases raw with
    | mk ost =>
      cases ost with
      | none =>
        exact absurd hok (by simp [WeiboParser.parseWeiboData])
      | some st =>
        simp only [WeiboParser.parseWeiboData, Except.ok.injEq] at hok
        rw [← hok]
        exact ⟨rfl, rfl⟩
  exact ⟨rfl, rfl, hw.1, hw.2, rfl, rfl, rfl, rfl⟩

/-- C3, amended, witness: a concrete successful service parse plus the
concrete fallback records. -/
theorem post_fields_c3_amended_witness :
    WeiboParser.parseWeiboData idParseEnv rawC3 = .ok wC3 ∧
    (parseWeiboData idParseEnv dC3).largeImgs.isArray = true ∧
    wC3.largeImgs.isArray = true ∧
    (fallbackWeiboData "u" "e" "2025-01-02T03:04:05.678Z" "b").largeImgs
      = JsField.str "" := by
  have h := post_fields_c3_amended idParseEnv dC3 rawC3 wC3
    "u" "e" "2025-01-02T03:04:05.678Z" "b" rfl
  exact ⟨rfl, h.1, h.2.2.1, h.2.2.2.2.2.1⟩

/-- C4.  On a repost marked long-form (with the long-form payload the source
reads), `originTextMD` is built from `longText.longTextContent`, not from the
truncated `text`; and a missing nested `user` or `screen_name` yields the
`"unknown"` sentinel.  The embedding is total, so neither case throws. -/
theorem parse_c4_retweet_longform_unknown (env : ParseEnv) (d : AllData)
    (rt : RetweetedStatus) (hrt : d.status.retweeted_status = some rt) :
    (∀ lt, rt.isLongText = true → rt.longText = some lt →
      (parseWeiboData env d).originTextMD = env.turndown lt.longTextContent) ∧
    ((rt.user = none ∨ ∃ uu, rt.user = some uu ∧ uu.screen_name = none) →
      (parseWeiboData env d).originUser = "unknown") := by
  constructor
  · intro lt hlong hlt
    simp [parseWeiboData, hrt, originTextOf, hlt, hlong]
  · intro hu
    rcases hu with h | ⟨uu, h, hsn⟩ <;>
      simp [parseWeiboData, hrt, screenNameOrUnknown, h, *]

/-- C4, witness: a repost with `isLongText`, a long-form payload
`"full text"`, truncated text `"<p>trunc</p>"`, and no nested user. -/
theorem parse_c4_witness :
    (parseWeiboData idParseEnv dC4).originTextMD = "full text" ∧
    (parseWeiboData idParseEnv dC4).originUser = "unknown" :=
  ⟨(parse_c4_retweet_longform_unknown idParseEnv dC4 rtC4 rfl).1 ⟨"full text"⟩ rfl rfl,
   (parse_c4_retweet_longform_unknown idParseEnv dC4 rtC4 rfl).2 (Or.inl rfl)⟩

/-- C5.  Every entry of the extracted image list either stems from a picture
record without a (truthy) `videoSrc` field, or from the `查看图片`
link-only-image href scan; pictures carrying a video source never contribute
an image entry. -/
theorem parse_c5_images_no_videoSrc (env : ParseEnv) (d : AllData) (u : String)
    (hu : u ∈ imagesOf (parseWeiboData env d)) :
    (∃ e ∈ (selectedPics d.status).getD [],
      jsTruthyOS e.videoSrc = false ∧ u = effPicUrl e) ∨
    u ∈ surlImgUrls d.status.text := by
  have himg : imagesOf (parseWeiboData env d) =
      picsImgUrls (selectedPics d.status) ++ surlImgUrls d.status.text := by
    simp [parseWeiboData, imagesOf]
  rw [himg] at hu
  rcases List.mem_append.1 hu with h | h
  · left
    cases hp : selectedPics d.status with
    | none => simp [picsImgUrls, hp] at h
    | some l =>
      simp only [picsImgUrls, hp] at h
      by_cases hl : 0 < l.length
      · rw [if_pos hl] at h
        rcases List.mem_filterMap.1 h with ⟨e, he, hfe⟩
        refine ⟨e, by simpa using he, ?_⟩
        cases hv : jsTruthyOS e.videoSrc with
        | false =>
          rw [if_neg (by rw [hv]; exact Bool.false_ne_true)] at hfe
          by_cases ht : jsTruthyS (effPicUrl e) = true
          · rw [if_pos ht] at hfe
            exact ⟨rfl, (Option.some.inj hfe).symm⟩
          · rw [if_neg ht] at hfe
            cases hfe
        | true =>
          rw [if_pos hv] at hfe
          cases hfe
      · rw [if_neg hl] at h
        simp at h
  · right
    exact h

/-- C5, witness: a single picture record without `videoSrc` contributes its
URL to the list. -/
theorem parse_c5_witness :
    "http://img1.jpg" ∈ imagesOf (parseWeiboData idParseEnv dC5) ∧
    ((∃ e ∈ (selectedPics dC5.status).getD [],
        jsTruthyOS e.videoSrc = false ∧ "http://img1.jpg" = effPicUrl e) ∨
      "http://img1.jpg" ∈ surlImgUrls dC5.status.text) :=
  ⟨by decide, parse_c5_images_no_videoSrc idParseEnv dC5 "http://img1.jpg" (by decide)⟩

/-- C6.  Every extracted video URL starts with the video-CDN host; the
`page_info.media_info.stream_url` candidates are used exactly when the
per-picture `videoSrc` scan yields nothing. -/
theorem parse_c6_videos_cdn (env : ParseEnv) (d : AllData) :
    (∀ u ∈ videosOf (parseWeiboData env d), jsStartsWith u cdnPre = true) ∧
    ((picsVideoSrcs (videoScanPics d.status)).length ≠ 0 →
      videosOf (parseWeiboData env d) =
        (picsVideoSrcs (videoScanPics d.status)).filter (fun e => jsStartsWith e cdnPre)) ∧
    ((picsVideoSrcs (videoScanPics d.status)).length = 0 →
      videosOf (parseWeiboData env d) =
        (streamCands d.status).filter (fun e => jsStartsWith e cdnPre)) := by
  have hv : videosOf (parseWeiboData env d) = videoPageUrlsOf d.status := by
    simp [parseWeiboData, videosOf]
  refine ⟨?_, ?_, ?_⟩
  · intro u hu
    rw [hv] at hu
    simp only [videoPageUrlsOf] at hu
    rcases List.mem_filter.1 hu with ⟨_, hp⟩
    exact hp
  · intro hne
    rw [hv]
    simp only [videoPageUrlsOf]
    rw [if_neg hne]
  · intro heq
    rw [hv]
    simp only [videoPageUrlsOf]
    rw [if_pos heq]

/-- C6, witness: a picture-scan candidate wins over a non-CDN stream URL, and
with no picture candidates the stream URL is consulted. -/
theorem parse_c6_witness :
    ((picsVideoSrcs (videoScanPics dC6.status)).length ≠ 0 ∧
      videosOf (parseWeiboData idParseEnv dC6) = ["https://f.video.weibocdn.com/v1.mp4"]) ∧
    ((picsVideoSrcs (videoScanPics dC6b.status)).length = 0 ∧
      videosOf (parseWeiboData idParseEnv dC6b) = ["https://f.video.weibocdn.com/s2.mp4"]) ∧
    jsStartsWith "https://f.video.weibocdn.com/v1.mp4" cdnPre = true :=
  ⟨⟨by decide, ((parse_c6_videos_cdn idParseEnv dC6).2.1 (by decide)).trans (by decide)⟩,
   ⟨by decide, ((parse_c6_videos_cdn idParseEnv dC6b).2.2 (by decide)).trans (by decide)⟩,
   (parse_c6_videos_cdn idParseEnv dC6).1 "https://f.video.weibocdn.com/v1.mp4" (by decide)⟩

/-- C7, counterexample.  The claim says the fallback text is the stringified
error followed by the random discriminator; the code concatenates the
discriminator first (`uuidv4() + error`). -/
theorem fallback_c7_counterexample :
    (fallbackWeiboData "uu" "E!" "2025-01-02T03:04:05.678Z" "body").outerTextMD
      = "uu" ++ "E!" ∧
    ¬ ((fallbackWeiboData "uu" "E!" "2025-01-02T03:04:05.678Z" "body").outerTextMD
      = "E!" ++ "uu") :=
  ⟨rfl, by decide⟩

/-- C7, amended.  The fallback synthesizer always succeeds and produces: text
= the fresh random discriminator concatenated with the stringified error (in
that order), author = the fixed `"Error"` sentinel, originText = the raw mail
body verbatim, an empty video list, and the normalized current timestamp. -/
theorem fallback_c7_amended (uuid err nowISO mailBody : String) :
    (fallbackWeiboData uuid err nowISO mailBody).outerTextMD = uuid ++ err ∧
    (fallbackWeiboData uuid err nowISO mailBody).outerUser = "Error" ∧
    (fallbackWeiboData uuid err nowISO mailBody).originTextMD = mailBody ∧
    (fallbackWeiboData uuid err nowISO mailBody).videoPageUrls = JsField.arr [] ∧
    (fallbackWeiboData uuid err nowISO mailBody).createdAt = normTs nowISO :=
  ⟨rfl, rfl, rfl, rfl, rfl⟩

/-! ## Claim about the media-acquisition batch (C8) -/

/-- The environment of the C8 scenario: the second URL's server answers 404,
everything else 200; `Date.now()` reads 99. -/
def c8Env : DLEnv := ⟨fun u => if u = "http://fail/2.jpg" then 404 else 200, 99⟩

/-- C8.  The claimed scenario holds: with the second URL answering 404 the
batch settles without raising, returns exactly one filename derived from the
first URL, and reports the second URL as failed.  But the claim that the
returned sequence contains only filenames of successful items fails on the
code: an invalid (falsy) URL entry is resolved as a fulfilled settlement
carrying a `null` title, and the `allSettled` filter keeps it, so the
"success" list contains `null` — contradicting the function's own JSDoc
(`Promise<Array<string>>` of downloaded image titles). -/
theorem downloadImages_c8_batch :
    downloadImages c8Env ["http://ok/1.jpg", "http://fail/2.jpg"] "t"
      = [some "t-99-0.jpg"] ∧
    downloadImagesFailed c8Env ["http://ok/1.jpg", "http://fail/2.jpg"] "t"
      = ["http://fail/2.jpg"] ∧
    downloadImages c8Env [""] "t" = [none] :=
  ⟨by decide, by decide, by decide⟩

/-! ## Claim about the heuristic image extraction (C9) -/

/-- Membership in `addImageToArray`: a new entry must be the element's
attribute value passing url/blocklist checks. -/
theorem addImageToArray_mem (el : ImgEl) (acc : List String) (u : String)
    (hu : u ∈ addImageToArray el acc) :
    u ∈ acc ∨ (imgSrcOf el = some u ∧ jsIncludes u "http" = true ∧
      jsIncludes u "avatar" = false ∧ jsIncludes u "picasso" = false) := by
  cases hsrc : imgSrcOf el with
  | none => simp only [addImageToArray, hsrc] at hu; exact Or.inl hu
  | some s =>
    simp only [addImageToArray, hsrc] at hu
    by_cases hc : (jsTruthyS s && jsIncludes s "http" && !jsIncludes s "avatar" &&
        !jsIncludes s "picasso" && !acc.contains s) = true
    · rw [if_pos hc] at hu
      rcases List.mem_append.1 hu with h | h
      · exact Or.inl h
      · have hs : u = s := by simpa using h
        subst hs
        simp only [Bool.and_eq_true, Bool.not_eq_true'] at hc
        exact Or.inr ⟨rfl, hc.1.1.1.2, hc.1.1.2, hc.1.2⟩
    · rw [if_neg hc] at hu
      exact Or.inl hu

/-- `addImageToArray` preserves the no-duplicates invariant (the
`!images.includes(imgSrc)` check). -/
theorem addImageToArray_nodup (el : ImgEl) (acc : List String) (h : acc.Nodup) :
    (addImageToArray el acc).Nodup := by
  cases hsrc : imgSrcOf el with
  | none => simpa only [addImageToArray, hsrc] using h
  | some s =>
    simp only [addImageToArray, hsrc]
    by_cases hc : (jsTruthyS s && jsIncludes s "http" && !jsIncludes s "avatar" &&
        !jsIncludes s "picasso" && !acc.contains s) = true
    · rw [if_pos hc]
      simp only [Bool.and_eq_true, Bool.not_eq_true'] at hc
      have hns : s ∉ acc := by
        intro hmem
        have : acc.contains s = true := by
          simpa using hmem
        rw [this] at hc
        exact Bool.noConfusion hc.2
      rw [List.nodup_append]
      exact ⟨h, List.nodup_singleton s, by
        intro a ha hb
        rw [List.mem_singleton.1 hb] at ha
        exact hns ha⟩
    · rw [if_neg hc]
      exact h

/-- Membership over the element fold. -/
theorem extractFromEls_mem (els : List ImgEl) (acc : List String) (u : String)
    (hu : u ∈ extractFromEls els acc) :
    u ∈ acc ∨ ∃ el ∈ els, imgSrcOf el = some u ∧ jsIncludes u "http" = true ∧
      jsIncludes u "avatar" = false ∧ jsIncludes u "picasso" = false := by
  induction els generalizing acc with
  | nil => exact Or.inl hu
  | cons el rest ih =>
    have hu2 : u ∈ extractFromEls rest (addImageToArray el acc) := hu
    rcases ih (addImageToArray el acc) hu2 with h | ⟨el2, hmem, hp⟩
    · rcases addImageToArray_mem el acc u h with h2 | h2
      · exact Or.inl h2
      · exact Or.inr ⟨el, List.mem_cons_self el rest, h2⟩
    · exact Or.inr ⟨el2, List.mem_cons_of_mem el hmem, hp⟩

/-- Nodup over the element fold. -/
theorem extractFromEls_nodup (els : List ImgEl) (acc : List String)
    (h : acc.Nodup) : (extractFromEls els acc).Nodup := by
  induction els generalizing acc with
  | nil => exact h
  | cons el rest ih => exact ih _ (addImageToArray_nodup el acc h)

def elC9 : ImgEl := ⟨some "http://a.jpg", some "http://b.jpg", none, none⟩

def docC9 : ImgDoc := ⟨[elC9], []⟩

def elC9b : ImgEl := ⟨some "http://c.jpg", none, none, none⟩

def docC9b : ImgDoc := ⟨[], [elC9b]⟩

/-- C9, counterexample.  The claim says the attributes are read in the order
`src`/`data-src`/`data-original`/`data-url`; the code reads `data-src` first:
an element carrying both `src="http://a.jpg"` and `data-src="http://b.jpg"`
contributes `http://b.jpg`, not `http://a.jpg`. -/
theorem extractImages_c9_counterexample :
    extractImages docC9 = ["http://b.jpg"] ∧
    ¬ (extractImages docC9 = ["http://a.jpg"]) :=
  ⟨by decide, by decide⟩

/-- C9, amended.  Image extraction reads `data-src`/`src`/`data-original`/
`data-url` in that preference order; accepted values contain `http`, avoid
the `avatar`/`picasso` blocklist substrings, are deduplicated, and the
all-`img` fallback scan runs exactly when the specific selector pass
produced nothing. -/
theorem extractImages_c9_amended (doc : ImgDoc) (u : String)
    (hu : u ∈ extractImages doc) :
    (∃ el, (el ∈ doc.noteSliderImgs ∨ el ∈ doc.allImgs) ∧
      imgSrcOf el = some u ∧ jsIncludes u "http" = true ∧
      jsIncludes u "avatar" = false ∧ jsIncludes u "picasso" = false) ∧
    (extractImages doc).Nodup ∧
    (extractFromEls doc.noteSliderImgs [] ≠ [] →
      extractImages doc = extractFromEls doc.noteSliderImgs []) ∧
    (extractFromEls doc.noteSliderImgs [] = [] →
      extractImages doc = extractFromEls doc.allImgs []) := by
  have hspecific : extractFromEls doc.noteSliderImgs [] ≠ [] →
      extractImages doc = extractFromEls doc.noteSliderImgs [] := by
    intro hne
    have hlen : 0 < doc.noteSliderImgs.length := by
      cases hel : doc.noteSliderImgs with
      | nil => rw [hel] at hne; exact absurd rfl hne
      | cons a l => simp
    unfold extractImages
    rw [if_pos hlen, if_neg (by simpa [List.length_eq_zero] using hne)]
  have hfall : extractFromEls doc.noteSliderImgs [] = [] →
      extractImages doc = extractFromEls doc.allImgs [] := by
    intro heq
    unfold extractImages
    by_cases hlen : 0 < doc.noteSliderImgs.length
    · rw [if_pos hlen, heq]
      rfl
    · rw [if_neg hlen]
      rfl
  refine ⟨?_, ?_, hspecific, hfall⟩
  · by_cases hne : extractFromEls doc.noteSliderImgs [] = []
    · rw [hfall hne] at hu
      rcases extractFromEls_mem doc.allImgs [] u hu with h | ⟨el, hmem, hp⟩
      · cases h
      · exact ⟨el, Or.inr hmem, hp⟩
    · rw [hspecific hne] at hu
      rcases extractFromEls_mem doc.noteSliderImgs [] u hu with h | ⟨el, hmem, hp⟩
      · cases h
      · exact ⟨el, Or.inl hmem, hp⟩
  · by_cases hne : extractFromEls doc.noteSliderImgs [] = []
    · rw [hfall hne]
      exact extractFromEls_nodup _ _ List.nodup_nil
    · rw [hspecific hne]
      exact extractFromEls_nodup _ _ List.nodup_nil

/-- C9, amended, witness: the two-attribute element contributes its
`data-src` value, and the fallback equations hold on the concrete documents. -/
theorem extractImages_c9_witness :
    "http://b.jpg" ∈ extractImages docC9 ∧
    ((∃ el, (el ∈ docC9.noteSliderImgs ∨ el ∈ docC9.allImgs) ∧
        imgSrcOf el = some "http://b.jpg" ∧
        jsIncludes "http://b.jpg" "http" = true ∧
        jsIncludes "http://b.jpg" "avatar" = false ∧
        jsIncludes "http://b.jpg" "picasso" = false) ∧
      (extractImages docC9).Nodup ∧
      (extractFromEls docC9.noteSliderImgs [] ≠ [] →
        extractImages docC9 = extractFromEls docC9.noteSliderImgs []) ∧
      (extractFromEls docC9.noteSliderImgs [] = [] →
        extractImages docC9 = extractFromEls docC9.allImgs [])) :=
  ⟨by decide, extractImages_c9_amended docC9 "http://b.jpg" (by decide)⟩

/-! ## Claim about the orchestrator (C10) -/

/-- C10.  Any failure of the fetch-and-parse step (page fetch error, missing
`$render_data`, missing `status`) is caught at the orchestrator boundary and
routed to the fallback synthesizer: the single record the run produces keeps
the raw mail body verbatim in `origin_text` and is marked with the `"Error"`
author sentinel.  `processWeiboPost` is total here (the file-system
collaborators are external), so every located post URL yields exactly one
record. -/
theorem processWeiboPost_c10_fallback (env : OrchEnv) (mailBody weiboUrl e : String)
    (hfail : (fetchWeiboContent env.page).bind (WeiboParser.parseWeiboData env.parseEnv)
      = .error e) :
    (processWeiboPost env mailBody weiboUrl).data.origin_text = mailBody ∧
    (processWeiboPost env mailBody weiboUrl).data.user = "Error" := by
  unfold processWeiboPost
  rw [hfail]
  exact ⟨rfl, rfl⟩

/-- The C10 environment: the page fetch succeeds but the embedded data lacks
the `status` object, the schema-error path. -/
def orchEnvC10 : OrchEnv :=
  ⟨.ok ⟨some ⟨none⟩⟩, "u-1", "2025-01-02T03:04:05.678Z", idParseEnv,
   ⟨fun _ => 200, 0⟩, fun _ => ""⟩

/-- C10, witness: the schema failure is routed to the fallback and the saved
record preserves the raw body. -/
theorem processWeiboPost_c10_witness :
    (fetchWeiboContent orchEnvC10.page).bind (WeiboParser.parseWeiboData orchEnvC10.parseEnv)
      = .error "Invalid Weibo data structure" ∧
    (processWeiboPost orchEnvC10 "RAWBODY" "https://m.weibo.cn/status/1").data.origin_text
      = "RAWBODY" ∧
    (processWeiboPost orchEnvC10 "RAWBODY" "https://m.weibo.cn/status/1").data.user
      = "Error" :=
  ⟨rfl,
   (processWeiboPost_c10_fallback orchEnvC10 "RAWBODY" "https://m.weibo.cn/status/1"
     "Invalid Weibo data structure" rfl).1,
   (processWeiboPost_c10_fallback orchEnvC10 "RAWBODY" "https://m.weibo.cn/status/1"
     "Invalid Weibo data structure" rfl).2⟩

end WeiboSaver
